import Mathlib

/-!
Verification development for the SmartHomeCloud repository.

This file shallowly embeds the server-side code that the checked properties
concern:

* `server/audioDetectionService.ts` — the simulated YAMNet/HuBERT audio
  classifier (`analyzeAudio`, the static sound-class tables, and the
  weighted random selection helper `getRandomSoundClasses`);
* `server/middleware.ts` — `requireRole` and `canAccessHouse`;
* `server/storage.ts` — the `DatabaseStorage` operations used by the
  routes (modelled over an explicit in-memory database state);
* `server/routes.ts` — the route handlers cited by the properties.

Conventions of the embedding:

* `Math.random()` is modelled by an explicit stream `g : Nat -> Q` of
  rationals; the contract of `Math.random` (every value in `[0,1)`) is the
  predicate `RandOk`.  Code that draws several random values threads an
  index into the stream, in the exact order the JavaScript code calls
  `Math.random()`.
* JavaScript numbers are modelled as `Q` (the rationals); all the constants
  involved are small decimal fractions, which floating point represents
  exactly or near-exactly, and none of the checked properties depends on
  rounding behaviour.
* Database rows are Lean structures holding the columns the properties
  touch; timestamp columns (`createdAt`, `updatedAt`, ...) and `jsonb`
  payload columns are environmental data that no checked property mentions
  and are omitted.  Nullable columns are `Option` fields; the SQL/JS
  comparison of `NULL` with a string is `false`, matching `Option` equality
  with `some`.
* An HTTP response is a status code together with either a data payload or
  an error body carrying the `message` field, exactly as every handler
  produces via `res.status(c).json(...)`.
-/

namespace SmartHome

/-! ## Audio detection service (server/audioDetectionService.ts) -/

/-- One entry of the static sound tables.  Field names follow the source
object literals.  The `keywords` field is carried verbatim from the source;
note that no code in the service ever reads it. -/
structure SoundClass where
  label : String
  keywords : List String
  severity : String
  type : String
  weight : Nat
deriving Repr, DecidableEq

/-- `YAMNET_SOUND_CLASSES` from the source, transcribed entry for entry. -/
def YAMNET_SOUND_CLASSES : List SoundClass := [
  { label := "Human scream", keywords := ["scream", "yell", "shout", "help"], severity := "critical", type := "emergency", weight := 1 },
  { label := "Human crying/sobbing", keywords := ["cry", "sob", "weep"], severity := "high", type := "health", weight := 2 },
  { label := "Human cough", keywords := ["cough"], severity := "low", type := "health", weight := 3 },
  { label := "Human voice/speech", keywords := ["voice", "speech", "talk", "speaking"], severity := "low", type := "security", weight := 8 },
  { label := "Human footsteps", keywords := ["footstep", "walking", "step"], severity := "medium", type := "security", weight := 6 },
  { label := "Human laughter", keywords := ["laugh", "giggle"], severity := "low", type := "health", weight := 3 },
  { label := "Baby crying", keywords := ["baby", "infant"], severity := "high", type := "health", weight := 2 },
  { label := "Glass breaking", keywords := ["glass", "break", "shatter"], severity := "critical", type := "emergency", weight := 1 },
  { label := "Alarm/Siren", keywords := ["alarm", "siren", "alert"], severity := "critical", type := "emergency", weight := 1 },
  { label := "Explosion", keywords := ["explosion", "blast", "boom"], severity := "critical", type := "emergency", weight := 1 },
  { label := "Smoke detector", keywords := ["smoke"], severity := "critical", type := "emergency", weight := 1 },
  { label := "Fire crackling", keywords := ["fire", "crackling"], severity := "critical", type := "emergency", weight := 1 },
  { label := "Door slam", keywords := ["door", "slam"], severity := "medium", type := "security", weight := 3 },
  { label := "Window sliding", keywords := ["window"], severity := "medium", type := "security", weight := 2 },
  { label := "Knocking", keywords := ["knock"], severity := "low", type := "security", weight := 3 },
  { label := "Water running/dripping", keywords := ["water", "drip", "leak"], severity := "medium", type := "maintenance", weight := 4 },
  { label := "Machine hum", keywords := ["machine", "hum", "motor"], severity := "low", type := "maintenance", weight := 5 },
  { label := "Beep/Buzzer", keywords := ["beep", "buzz"], severity := "low", type := "maintenance", weight := 3 }
]

/-- `HUBERT_ANIMAL_CLASSES` from the source, transcribed entry for entry. -/
def HUBERT_ANIMAL_CLASSES : List SoundClass := [
  { label := "Dog barking", keywords := ["dog", "bark", "canine"], severity := "medium", type := "security", weight := 3 },
  { label := "Cat meowing", keywords := ["cat", "meow", "feline"], severity := "low", type := "security", weight := 2 },
  { label := "Rooster crowing", keywords := ["rooster", "crow", "chicken"], severity := "low", type := "security", weight := 1 },
  { label := "Pig oinking", keywords := ["pig", "oink"], severity := "low", type := "security", weight := 1 },
  { label := "Cow mooing", keywords := ["cow", "moo"], severity := "low", type := "security", weight := 1 },
  { label := "Frog croaking", keywords := ["frog", "croak"], severity := "low", type := "security", weight := 1 },
  { label := "Hen clucking", keywords := ["hen", "cluck"], severity := "low", type := "security", weight := 1 },
  { label := "Insect buzzing", keywords := ["insect", "buzz", "fly"], severity := "low", type := "security", weight := 2 },
  { label := "Sheep bleating", keywords := ["sheep", "bleat"], severity := "low", type := "security", weight := 1 },
  { label := "Crow cawing", keywords := ["crow", "caw", "bird"], severity := "low", type := "security", weight := 1 }
]

/-- The model tag of a prediction (the string union type of the source). -/
inductive MLModel where
  | yamnet
  | hubert
deriving Repr, DecidableEq

/-- `AudioPrediction` from the source. -/
structure AudioPrediction where
  label : String
  confidence : ℚ
  model : MLModel
deriving Repr, DecidableEq

/-- `AudioAnalysisResult` from the source, with the nested
`primaryDetection` record flattened into the `primary*` fields
(`primaryDetection.class`, `primaryDetection.confidence`,
`primaryDetection.model`). -/
structure AudioAnalysisResult where
  primaryClass : String
  primaryConfidence : ℚ
  primaryModel : MLModel
  allPredictions : List AudioPrediction
  shouldGenerateAlert : Bool
  alertSeverity : Option String
  alertType : Option String
  alertMessage : Option String
deriving Repr, DecidableEq

/-- The contract of `Math.random()`: every drawn value lies in `[0, 1)`. -/
def RandOk (g : Nat → ℚ) : Prop := ∀ n, 0 ≤ g n ∧ g n < 1

/-- `Math.floor` on a rational (JavaScript floor of a finite number). -/
def jsFloor (q : ℚ) : ℤ := Rat.floor q

/-- Effective weight `c.weight || 1` used by `getRandomSoundClasses`
(a weight of `0` is falsy in JavaScript and replaced by `1`). -/
def wEff (c : SoundClass) : ℚ := if c.weight = 0 then 1 else c.weight

/-- `totalWeight`: the sum of the effective weights of the full class list
(computed once, before the selection loop, and never recomputed). -/
def totalWeight (classes : List SoundClass) : ℚ := (classes.map wEff).sum

/-- The inner scan of the selection loop.  Starting from the drawn target
`t = random * totalWeight`, subtract the weights one by one and return the
first index at which the running value drops to `<= 0`; `none` if the scan
exhausts the list. -/
def scanPick : ℚ → List ℚ → Option Nat
  | _, [] => none
  | t, w :: ws => if t - w ≤ 0 then some 0 else (scanPick (t - w) ws).map (· + 1)

/-- `selectedIndex` of one iteration of `getRandomSoundClasses`: the scan
result, or `0` when the scan never fires (the JavaScript variable is
initialised to `0` and left untouched in that case). -/
def pickIndex (t : ℚ) (ws : List ℚ) : Nat := (scanPick t ws).getD 0

/-- Placeholder element for the (never taken) out-of-range list access. -/
def dummyClass : SoundClass := { label := "", keywords := [], severity := "", type := "", weight := 0 }

/-- The `for (let i = 0; i < Math.min(count, availableClasses.length); i++)`
loop of `getRandomSoundClasses`.  `it` is the loop counter `i`, `i` the
position in the random stream, `avail` the mutable `availableClasses`
array; the loop guard is re-evaluated against the current (shrinking)
array.  `fuel` bounds the recursion and starts at `count`, so it never runs
out before the guard fails. -/
def selectLoop (g : Nat → ℚ) (total : ℚ) (count : Nat) :
    Nat → Nat → Nat → List SoundClass → List SoundClass × Nat
  | 0, _, i, _ => ([], i)
  | fuel + 1, it, i, avail =>
    if it < count ∧ it < avail.length then
      let t := g i * total
      let j := pickIndex t (avail.map wEff)
      let sel := avail.getD j dummyClass
      let res := selectLoop g total count fuel (it + 1) (i + 1) (avail.eraseIdx j)
      (sel :: res.1, res.2)
    else ([], i)

/-- `getRandomSoundClasses(classes, count)` from the source, drawing its
randoms from `g` starting at stream position `i`; returns the selected
classes and the next stream position. -/
def getRandomSoundClasses (g : Nat → ℚ) (i : Nat) (classes : List SoundClass) (count : Nat) :
    List SoundClass × Nat :=
  selectLoop g (totalWeight classes) count count 0 i classes

/-- `numYamnetPredictions = 3 + Math.floor(Math.random() * 3)` (stream
position 0).  The `Int.toNat` cast is exact for every value `Math.random`
can return. -/
def numYamnetPredictions (g : Nat → ℚ) : Nat := (3 + jsFloor (g 0 * 3)).toNat

/-- The YAMNet class selection (stream positions 1 onward). -/
def yamnetSelection (g : Nat → ℚ) : List SoundClass × Nat :=
  getRandomSoundClasses g 1 YAMNET_SOUND_CLASSES (numYamnetPredictions g)

/-- `baseConfidence` of the YAMNet `forEach`: `0.70` for index `0`, else `0.40`. -/
def yamnetBase (idx : Nat) : ℚ := if idx = 0 then 70/100 else 40/100

/-- `variance` of the YAMNet `forEach`: `0.25` for index `0`, else `0.20`. -/
def yamnetVariance (idx : Nat) : ℚ := if idx = 0 then 25/100 else 20/100

/-- The YAMNet predictions pushed by the first `forEach`, together with the
next random stream position. -/
def yamnetPredictions (g : Nat → ℚ) : List AudioPrediction × Nat :=
  let sel := yamnetSelection g
  (sel.1.enum.map (fun p =>
      { label := p.2.label
        confidence := yamnetBase p.1 + g (sel.2 + p.1) * yamnetVariance p.1
        model := MLModel.yamnet }),
   sel.2 + sel.1.length)

/-- The HuBERT branch: with probability `0.20` (one draw at stream position
`i2`), select `1 + Math.floor(Math.random() * 2)` animal classes and push a
prediction with confidence `0.65 + Math.random() * 0.30` for each. -/
def hubertPredictions (g : Nat → ℚ) (i2 : Nat) : List AudioPrediction :=
  if g i2 < 20/100 then
    let count := (1 + jsFloor (g (i2 + 1) * 2)).toNat
    let sel := getRandomSoundClasses g (i2 + 2) HUBERT_ANIMAL_CLASSES count
    sel.1.enum.map (fun p =>
      { label := p.2.label
        confidence := 65/100 + g (sel.2 + p.1) * (30/100)
        model := MLModel.hubert })
  else []

/-- The `predictions` array before sorting: YAMNet pushes first, then the
HuBERT branch. -/
def rawPredictions (g : Nat → ℚ) : List AudioPrediction :=
  (yamnetPredictions g).1 ++ hubertPredictions g (yamnetPredictions g).2

/-- The comparator `(a, b) => b.confidence - a.confidence` as the total
preorder it induces: `a` may precede `b` when `b.confidence <= a.confidence`. -/
def confDesc (a b : AudioPrediction) : Prop := b.confidence ≤ a.confidence

instance : DecidableRel confDesc := fun a b =>
  inferInstanceAs (Decidable (b.confidence ≤ a.confidence))

instance : IsTotal AudioPrediction confDesc :=
  ⟨fun a b => le_total b.confidence a.confidence⟩

instance : IsTrans AudioPrediction confDesc :=
  ⟨fun _ _ _ h1 h2 => le_trans h2 h1⟩

/-- `predictions.sort((a, b) => b.confidence - a.confidence)`.  The
ECMAScript `Array.prototype.sort` is a stable sort, and for a total
preorder the stable sorted permutation of a list is unique, so any stable
sorting algorithm models it exactly; we use insertion sort. -/
def sortedPredictions (g : Nat → ℚ) : List AudioPrediction :=
  (rawPredictions g).insertionSort confDesc

/-- Placeholder for the (never taken) read of `predictions[0]` on an empty
array. -/
def dummyPrediction : AudioPrediction := { label := "", confidence := 0, model := MLModel.yamnet }

/-- The `soundConfig` lookup: find the primary label in
`[...YAMNET_SOUND_CLASSES, ...HUBERT_ANIMAL_CLASSES]`. -/
def soundConfigFor (label : String) : Option SoundClass :=
  (YAMNET_SOUND_CLASSES ++ HUBERT_ANIMAL_CLASSES).find? (fun s => s.label == label)

/-- JavaScript `String.prototype.includes` on characters: prefix test. -/
def charsHavePrefix : List Char → List Char → Bool
  | [], _ => true
  | _ :: _, [] => false
  | a :: as, b :: bs => a == b && charsHavePrefix as bs

/-- JavaScript `String.prototype.includes` on characters: substring test. -/
def charsContain (sub : List Char) : List Char → Bool
  | [] => sub.isEmpty
  | c :: cs => charsHavePrefix sub (c :: cs) || charsContain sub cs

/-- JavaScript `s.includes(sub)`. -/
def strIncludes (s sub : String) : Bool := charsContain sub.toList s.toList

/-- The alert-message construction of `analyzeAudio` for a given sound
config and resolved location (the body of the
`if (shouldGenerateAlert && soundConfig)` block). -/
def buildAlertMessage (cfg : SoundClass) (location : String) : Option String :=
  if cfg.type = "emergency" then
    some ("üö® EMERGENCY: " ++ cfg.label ++ " detected at " ++ location)
  else if cfg.type = "security" then
    if strIncludes cfg.label "Dog" || strIncludes cfg.label "animal" then
      some ("üêï Animal detected: " ++ cfg.label ++ " at " ++ location)
    else
      some ("üîí Security Alert: " ++ cfg.label ++ " detected at " ++ location)
  else if cfg.type = "health" then
    some ("üè• Health Concern: " ++ cfg.label ++ " detected at " ++ location)
  else if cfg.type = "maintenance" then
    some ("üîß Maintenance Alert: " ++ cfg.label ++ " detected at " ++ location)
  else none

/-- The alert decision
`soundConfig ? [medium, high, critical].includes(soundConfig.severity) : false`. -/
def shouldGenerateAlertFor (soundConfig : Option SoundClass) : Bool :=
  match soundConfig with
  | some cfg => (["medium", "high", "critical"] : List String).contains cfg.severity
  | none => false

/-- `const location = deviceLocation || "Unknown Location"` — the empty
string is falsy in JavaScript. -/
def locationOf (deviceLocation : Option String) : String :=
  match deviceLocation with
  | some s => if s = "" then "Unknown Location" else s
  | none => "Unknown Location"

/-- The `alertMessage` variable: built only inside the
`if (shouldGenerateAlert && soundConfig)` block, otherwise left undefined. -/
def alertMessageFor (soundConfig : Option SoundClass) (shouldGenerateAlert : Bool)
    (location : String) : Option String :=
  match soundConfig with
  | some cfg => if shouldGenerateAlert then buildAlertMessage cfg location else none
  | none => none

/-- `analyzeAudio(fileName, fileBuffer?, deviceLocation?)` from the source,
over the explicit random stream `g`.  Mirrors the source line by line: the
`fileName` and `fileBuffer` parameters are accepted and never read. -/
def analyzeAudio (fileName : String) (fileBuffer : Option (List Nat)) (g : Nat → ℚ)
    (deviceLocation : Option String) : AudioAnalysisResult :=
  let predictions := sortedPredictions g
  let primaryPrediction := predictions.headD dummyPrediction
  let soundConfig := soundConfigFor primaryPrediction.label
  let shouldGenerateAlert := shouldGenerateAlertFor soundConfig
  let location := locationOf deviceLocation
  { primaryClass := primaryPrediction.label
    primaryConfidence := primaryPrediction.confidence
    primaryModel := primaryPrediction.model
    allPredictions := predictions
    shouldGenerateAlert := shouldGenerateAlert
    alertSeverity := soundConfig.map (fun c => c.severity)
    alertType := soundConfig.map (fun c => c.type)
    alertMessage := alertMessageFor soundConfig shouldGenerateAlert location }

/-- `generateAlertDescription` formats with `toFixed(1)`; only its shape
matters to no checked property, but it is included for completeness using
an abstract percentage rendering. -/
def generateAlertDescription (detectionClass : String) (confidencePercent : String)
    (deviceName : String) (location : String) : String :=
  "AI Model detected \"" ++ detectionClass ++ "\" with " ++ confidencePercent ++
    "% confidence from " ++ deviceName ++ " at " ++ location ++ ". " ++
    "Automatic alert generated based on sound pattern analysis using YAMNet and HuBERT audio recognition models."

/-! ## Basic facts about the selection machinery -/

/-- `Rat.floor` agrees with the mathematical floor function. -/
lemma jsFloor_eq_floor (q : ℚ) : jsFloor q = ⌊q⌋ := by
  rw [jsFloor, Rat.floor_def', Rat.floor_def]

/-- The inner scan returns an index within the weight list. -/
lemma scanPick_lt {t : ℚ} {ws : List ℚ} {j : Nat} (h : scanPick t ws = some j) :
    j < ws.length := by
  induction ws generalizing t j with
  | nil => simp [scanPick] at h
  | cons w ws ih =>
    rw [scanPick] at h
    split at h
    · simp only [Option.some.injEq] at h
      simp [← h]
    · rcases Option.map_eq_some'.mp h with ⟨j', hj', rfl⟩
      have := ih hj'
      simp only [List.length_cons]
      omega

/-- On a nonempty weight list, the selected index is always in range. -/
lemma pickIndex_lt {t : ℚ} {ws : List ℚ} (h : ws ≠ []) : pickIndex t ws < ws.length := by
  unfold pickIndex
  cases hs : scanPick t ws with
  | none => simpa using List.length_pos.mpr h
  | some j => simpa using scanPick_lt hs

/-- When the class list is long enough relative to the requested count, the
loop guard never fails early and the selection returns exactly `fuel`
classes. -/
lemma selectLoop_length (g : Nat → ℚ) (total : ℚ) (count : Nat) :
    ∀ fuel it i avail, it + fuel = count → 2 * count ≤ it + avail.length + 1 →
      (selectLoop g total count fuel it i avail).1.length = fuel := by
  intro fuel
  induction fuel with
  | zero => intro it i avail _ _; simp [selectLoop]
  | succ fuel ih =>
    intro it i avail h1 h2
    have hit : it < count := by omega
    have hlen : it < avail.length := by omega
    have havne : avail ≠ [] := by
      intro hh; rw [hh] at hlen; simp at hlen
    have hj : pickIndex (g i * total) (avail.map wEff) < avail.length := by
      have := @pickIndex_lt (g i * total) (avail.map wEff)
        (by simpa using havne)
      simpa using this
    have herase :
        (avail.eraseIdx (pickIndex (g i * total) (avail.map wEff))).length
          = avail.length - 1 := by
      rw [List.length_eraseIdx]
      simp [hj]
    rw [selectLoop, if_pos ⟨hit, hlen⟩]
    simp only [List.length_cons]
    rw [ih (it + 1) (i + 1) _ (by omega) (by rw [herase]; omega)]

/-- Every class the loop selects is a member of the available class list. -/
lemma selectLoop_subset (g : Nat → ℚ) (total : ℚ) (count : Nat) :
    ∀ fuel it i avail c, c ∈ (selectLoop g total count fuel it i avail).1 → c ∈ avail := by
  intro fuel
  induction fuel with
  | zero => intro it i avail c hc; simp [selectLoop] at hc
  | succ fuel ih =>
    intro it i avail c hc
    rw [selectLoop] at hc
    by_cases hcond : it < count ∧ it < avail.length
    · rw [if_pos hcond] at hc
      simp only [List.mem_cons] at hc
      have havne : avail ≠ [] := by
        intro hh; rw [hh] at hcond; simp at hcond
      have hj : pickIndex (g i * total) (avail.map wEff) < avail.length := by
        have := @pickIndex_lt (g i * total) (avail.map wEff)
          (by simpa using havne)
        simpa using this
      rcases hc with rfl | hc
      · rw [List.getD_eq_getElem?_getD, List.getElem?_eq_getElem hj]
        exact List.getElem_mem hj
      · exact (List.eraseIdx_sublist avail _).subset (ih _ _ _ _ hc)
    · rw [if_neg hcond] at hc
      simp at hc

/-- `getRandomSoundClasses` returns exactly `count` classes when the table
is long enough. -/
lemma getRandomSoundClasses_length (g : Nat → ℚ) (i : Nat) (classes : List SoundClass)
    (count : Nat) (h : 2 * count ≤ classes.length + 1) :
    (getRandomSoundClasses g i classes count).1.length = count :=
  selectLoop_length g (totalWeight classes) count count 0 i classes (by omega) (by omega)

/-- `getRandomSoundClasses` only returns members of its class table. -/
lemma getRandomSoundClasses_subset (g : Nat → ℚ) (i : Nat) (classes : List SoundClass)
    (count : Nat) {c : SoundClass}
    (hc : c ∈ (getRandomSoundClasses g i classes count).1) : c ∈ classes :=
  selectLoop_subset g (totalWeight classes) count count 0 i classes c hc

/-- Under the `Math.random` contract, between 3 and 5 YAMNet classes are
requested. -/
lemma numYamnetPredictions_bounds {g : Nat → ℚ} (hg : RandOk g) :
    3 ≤ numYamnetPredictions g ∧ numYamnetPredictions g ≤ 5 := by
  obtain ⟨h0, h1⟩ := hg 0
  unfold numYamnetPredictions
  rw [jsFloor_eq_floor]
  have hnn : (0 : ℤ) ≤ ⌊g 0 * 3⌋ := Int.floor_nonneg.mpr (by positivity)
  have hlt : ⌊g 0 * 3⌋ < (3 : ℤ) := Int.floor_lt.mpr (by push_cast; nlinarith)
  omega

/-- Under the `Math.random` contract, the YAMNet pass pushes exactly
`numYamnetPredictions` predictions. -/
lemma yamnetPredictions_length {g : Nat → ℚ} (hg : RandOk g) :
    (yamnetPredictions g).1.length = numYamnetPredictions g := by
  obtain ⟨h3, h5⟩ := numYamnetPredictions_bounds hg
  unfold yamnetPredictions yamnetSelection
  simp only [List.length_map, List.enum_length]
  exact getRandomSoundClasses_length _ _ _ _
    (by rw [show YAMNET_SOUND_CLASSES.length = 18 from rfl]; omega)

/-- Shape of one YAMNet confidence value:
`base(idx) <= c < base(idx) + variance(idx)`, hence within `[0.40, 0.95)`. -/
lemma yamnet_conf_form {g : Nat → ℚ} (hg : RandOk g) (idx k : Nat) :
    2/5 ≤ yamnetBase idx + g k * yamnetVariance idx ∧
      yamnetBase idx + g k * yamnetVariance idx < 19/20 := by
  obtain ⟨h0, h1⟩ := hg k
  unfold yamnetBase yamnetVariance
  by_cases h : idx = 0 <;> simp only [h, if_pos, if_true, if_false, if_neg, reduceIte] <;>
    constructor <;> nlinarith

/-- Shape of one HuBERT confidence value: within `[0.65, 0.95)`. -/
lemma hubert_conf_form {g : Nat → ℚ} (hg : RandOk g) (k : Nat) :
    13/20 ≤ 65/100 + g k * (30/100) ∧ 65/100 + g k * (30/100) < 19/20 := by
  obtain ⟨h0, h1⟩ := hg k
  constructor <;> nlinarith

/-- Every YAMNet prediction is tagged `yamnet`, has a confidence in
`[0.40, 0.95)`, and carries the label of a `YAMNET_SOUND_CLASSES` entry. -/
lemma yamnetPredictions_mem {g : Nat → ℚ} (hg : RandOk g) {p : AudioPrediction}
    (hp : p ∈ (yamnetPredictions g).1) :
    (2/5 ≤ p.confidence ∧ p.confidence < 19/20) ∧ p.model = MLModel.yamnet ∧
      ∃ c ∈ YAMNET_SOUND_CLASSES, c.label = p.label := by
  unfold yamnetPredictions at hp
  simp only [List.mem_map] at hp
  obtain ⟨⟨idx, c⟩, hmem, rfl⟩ := hp
  obtain ⟨hidx, hc⟩ := List.mem_enum hmem
  refine ⟨yamnet_conf_form hg idx _, rfl, c, ?_, rfl⟩
  have hcmem : c ∈ (yamnetSelection g).1 := by
    rw [hc]; exact List.getElem_mem hidx
  exact getRandomSoundClasses_subset _ _ _ _ hcmem

/-- Every HuBERT prediction is tagged `hubert`, has a confidence in
`[0.65, 0.95)`, and carries the label of a `HUBERT_ANIMAL_CLASSES` entry. -/
lemma hubertPredictions_mem {g : Nat → ℚ} (hg : RandOk g) {i2 : Nat} {p : AudioPrediction}
    (hp : p ∈ hubertPredictions g i2) :
    (13/20 ≤ p.confidence ∧ p.confidence < 19/20) ∧ p.model = MLModel.hubert ∧
      ∃ c ∈ HUBERT_ANIMAL_CLASSES, c.label = p.label := by
  unfold hubertPredictions at hp
  by_cases h : g i2 < 20/100
  · rw [if_pos h] at hp
    simp only [List.mem_map] at hp
    obtain ⟨⟨idx, c⟩, hmem, rfl⟩ := hp
    obtain ⟨hidx, hc⟩ := List.mem_enum hmem
    refine ⟨hubert_conf_form hg _, rfl, c, ?_, rfl⟩
    have hcmem : c ∈ (getRandomSoundClasses g (i2 + 2) HUBERT_ANIMAL_CLASSES
        ((1 + jsFloor (g (i2 + 1) * 2)).toNat)).1 := by
      rw [hc]; exact List.getElem_mem hidx
    exact getRandomSoundClasses_subset _ _ _ _ hcmem
  · rw [if_neg h] at hp
    simp at hp

/-- Every raw prediction has a confidence in `[0.40, 0.95)` and a label
from the concatenated sound tables. -/
lemma rawPredictions_mem {g : Nat → ℚ} (hg : RandOk g) {p : AudioPrediction}
    (hp : p ∈ rawPredictions g) :
    (2/5 ≤ p.confidence ∧ p.confidence < 19/20) ∧
      (p.model = MLModel.hubert → 13/20 ≤ p.confidence) ∧
      ∃ c ∈ YAMNET_SOUND_CLASSES ++ HUBERT_ANIMAL_CLASSES, c.label = p.label := by
  rcases List.mem_append.mp hp with h | h
  · obtain ⟨hb, hm, c, hc, hl⟩ := yamnetPredictions_mem hg h
    refine ⟨hb, ?_, c, List.mem_append_left _ hc, hl⟩
    intro hmodel
    rw [hm] at hmodel
    cases hmodel
  · obtain ⟨hb, hm, c, hc, hl⟩ := hubertPredictions_mem hg h
    refine ⟨⟨by linarith [hb.1], hb.2⟩, fun _ => hb.1, c, List.mem_append_right _ hc, hl⟩

/-- Under the `Math.random` contract there are at least 3 raw predictions. -/
lemma rawPredictions_card {g : Nat → ℚ} (hg : RandOk g) :
    3 ≤ (rawPredictions g).length := by
  unfold rawPredictions
  rw [List.length_append]
  have h1 := yamnetPredictions_length hg
  have h3 := (numYamnetPredictions_bounds hg).1
  omega

/-- The sorted prediction list is a permutation of the raw one. -/
lemma sortedPredictions_perm (g : Nat → ℚ) : (sortedPredictions g).Perm (rawPredictions g) :=
  List.perm_insertionSort _ _

/-- The sorted prediction list is pairwise non-increasing in confidence. -/
lemma sortedPredictions_sorted (g : Nat → ℚ) :
    (sortedPredictions g).Pairwise (fun p q => q.confidence ≤ p.confidence) :=
  List.sorted_insertionSort confDesc (rawPredictions g)

/-! ## Claim theorems for the audio service -/

/-- C9.  For every call to `analyzeAudio` (under the `Math.random` contract),
the predictions list has at least 3 entries — so `predictions[0]` never reads
a missing element — `allPredictions` is sorted in non-increasing confidence
order, and `primaryDetection` is exactly the first (maximum-confidence)
element of `allPredictions`. -/
theorem C9_predictions_shape (fileName : String) (fileBuffer : Option (List Nat))
    (g : Nat → ℚ) (deviceLocation : Option String) (hg : RandOk g) :
    3 ≤ (analyzeAudio fileName fileBuffer g deviceLocation).allPredictions.length ∧
    (analyzeAudio fileName fileBuffer g deviceLocation).allPredictions.Pairwise
      (fun p q => q.confidence ≤ p.confidence) ∧
    (analyzeAudio fileName fileBuffer g deviceLocation).allPredictions.head? = some
        { label := (analyzeAudio fileName fileBuffer g deviceLocation).primaryClass
          confidence := (analyzeAudio fileName fileBuffer g deviceLocation).primaryConfidence
          model := (analyzeAudio fileName fileBuffer g deviceLocation).primaryModel } ∧
    ∀ p ∈ (analyzeAudio fileName fileBuffer g deviceLocation).allPredictions,
      p.confidence ≤ (analyzeAudio fileName fileBuffer g deviceLocation).primaryConfidence := by
  have hAll : (analyzeAudio fileName fileBuffer g deviceLocation).allPredictions
      = sortedPredictions g := rfl
  have hlen : 3 ≤ (sortedPredictions g).length := by
    unfold sortedPredictions
    rw [List.length_insertionSort]
    exact rawPredictions_card hg
  have hsorted := sortedPredictions_sorted g
  rw [hAll]
  cases hsp : sortedPredictions g with
  | nil => rw [hsp] at hlen; simp at hlen
  | cons a tl =>
    rw [hsp] at hsorted
    have hPrim : (analyzeAudio fileName fileBuffer g deviceLocation).primaryClass = a.label ∧
        (analyzeAudio fileName fileBuffer g deviceLocation).primaryConfidence = a.confidence ∧
        (analyzeAudio fileName fileBuffer g deviceLocation).primaryModel = a.model := by
      refine ⟨?_, ?_, ?_⟩
      · show ((sortedPredictions g).headD dummyPrediction).label = _
        rw [hsp]
        rfl
      · show ((sortedPredictions g).headD dummyPrediction).confidence = _
        rw [hsp]
        rfl
      · show ((sortedPredictions g).headD dummyPrediction).model = _
        rw [hsp]
        rfl
    obtain ⟨hc1, hc2, hc3⟩ := hPrim
    refine ⟨by rw [hsp] at hlen; exact hlen, hsorted, ?_, ?_⟩
    · rw [hc1, hc2, hc3]
      rfl
    · intro p hp
      rw [hc2]
      rcases List.mem_cons.mp hp with rfl | hp
      · exact le_refl _
      · exact (List.pairwise_cons.mp hsorted).1 p hp

/-- C9 witness at the all-zero random stream. -/
theorem C9_predictions_shape_witness :
    3 ≤ (analyzeAudio "a.wav" none (fun _ => 0) none).allPredictions.length :=
  (C9_predictions_shape "a.wav" none (fun _ => 0) none
    (fun _ => by norm_num)).1

/-- The primary prediction (head of the sorted list) is one of the raw
predictions. -/
lemma sortedPredictions_head_mem {g : Nat → ℚ} (hg : RandOk g) :
    (sortedPredictions g).headD dummyPrediction ∈ rawPredictions g := by
  have hlen : 3 ≤ (sortedPredictions g).length := by
    unfold sortedPredictions
    rw [List.length_insertionSort]
    exact rawPredictions_card hg
  cases hsp : sortedPredictions g with
  | nil => rw [hsp] at hlen; simp at hlen
  | cons a tl =>
    have ha : a ∈ sortedPredictions g := by
      rw [hsp]; exact List.mem_cons_self a tl
    exact (sortedPredictions_perm g).mem_iff.mp ha

/-- The confidence pushed by the YAMNet `forEach` at loop index `i`:
`baseConfidence(i) + Math.random() * variance(i)`. -/
lemma yamnetPredictions_conf_getElem {g : Nat → ℚ} {i : Nat}
    (hi : i < (yamnetPredictions g).1.length) :
    ((yamnetPredictions g).1[i]).confidence
      = yamnetBase i + g ((yamnetSelection g).2 + i) * yamnetVariance i := by
  unfold yamnetPredictions at hi ⊢
  simp only [List.getElem_map, List.getElem_enum]

/-- C10.  Under the `Math.random` contract, every confidence in
`allPredictions` lies in `[0.40, 0.95)`; by category — `allPredictions` is
a permutation of the YAMNet predictions followed by the HuBERT ones — the
YAMNet primary (loop index 0) lies in `[0.70, 0.95)`, the other YAMNet
predictions (loop index ≥ 1) in `[0.40, 0.60)`, and the HuBERT ones in
`[0.65, 0.95)`.  Hence the primary confidence — the value recorded as
`aiConfidence` on a generated alert — lies strictly between 0 and 1. -/
theorem C10_confidence_bounds (fileName : String) (fileBuffer : Option (List Nat))
    (g : Nat → ℚ) (deviceLocation : Option String) (hg : RandOk g) :
    (∀ p ∈ (analyzeAudio fileName fileBuffer g deviceLocation).allPredictions,
        2/5 ≤ p.confidence ∧ p.confidence < 19/20) ∧
    (analyzeAudio fileName fileBuffer g deviceLocation).allPredictions.Perm
      ((yamnetPredictions g).1 ++ hubertPredictions g (yamnetPredictions g).2) ∧
    (∀ i, ∀ hi : i < (yamnetPredictions g).1.length,
      (i = 0 → 70/100 ≤ ((yamnetPredictions g).1[i]).confidence ∧
        ((yamnetPredictions g).1[i]).confidence < 95/100) ∧
      (i ≠ 0 → 2/5 ≤ ((yamnetPredictions g).1[i]).confidence ∧
        ((yamnetPredictions g).1[i]).confidence < 3/5)) ∧
    (∀ p ∈ hubertPredictions g (yamnetPredictions g).2,
        13/20 ≤ p.confidence ∧ p.confidence < 19/20) ∧
    (∀ p ∈ (analyzeAudio fileName fileBuffer g deviceLocation).allPredictions,
        p.model = MLModel.hubert → 13/20 ≤ p.confidence) ∧
    0 < (analyzeAudio fileName fileBuffer g deviceLocation).primaryConfidence ∧
    (analyzeAudio fileName fileBuffer g deviceLocation).primaryConfidence < 1 := by
  have hAll : (analyzeAudio fileName fileBuffer g deviceLocation).allPredictions
      = sortedPredictions g := rfl
  have hPc : (analyzeAudio fileName fileBuffer g deviceLocation).primaryConfidence
      = ((sortedPredictions g).headD dummyPrediction).confidence := rfl
  have hmem : ∀ p ∈ sortedPredictions g, p ∈ rawPredictions g := fun p hp =>
    (sortedPredictions_perm g).mem_iff.mp hp
  have hhead := rawPredictions_mem hg (sortedPredictions_head_mem hg)
  refine ⟨?_, sortedPredictions_perm g, ?_, ?_, ?_, ?_, ?_⟩
  · intro p hp
    exact (rawPredictions_mem hg (hmem p (hAll ▸ hp))).1
  · intro i hi
    have hconf := yamnetPredictions_conf_getElem hi
    constructor
    · intro h0
      subst h0
      obtain ⟨hl, hu⟩ := hg ((yamnetSelection g).2 + 0)
      rw [hconf, show yamnetBase 0 = 70/100 from rfl,
        show yamnetVariance 0 = 25/100 from rfl]
      constructor <;> nlinarith
    · intro hne
      rw [hconf]
      obtain ⟨hl, hu⟩ := hg ((yamnetSelection g).2 + i)
      unfold yamnetBase yamnetVariance
      rw [if_neg hne, if_neg hne]
      constructor <;> nlinarith
  · intro p hp
    exact (hubertPredictions_mem hg hp).1
  · intro p hp hm
    exact (rawPredictions_mem hg (hmem p (hAll ▸ hp))).2.1 hm
  · rw [hPc]
    have := hhead.1.1
    linarith
  · rw [hPc]
    have := hhead.1.2
    linarith

/-- C10 witness at the all-zero random stream. -/
theorem C10_confidence_bounds_witness :
    0 < (analyzeAudio "a.wav" none (fun _ => 0) none).primaryConfidence ∧
    (analyzeAudio "a.wav" none (fun _ => 0) none).primaryConfidence < 1 :=
  ⟨(C10_confidence_bounds "a.wav" none (fun _ => 0) none
      (fun _ => by norm_num)).2.2.2.2.2.1,
   (C10_confidence_bounds "a.wav" none (fun _ => 0) none
      (fun _ => by norm_num)).2.2.2.2.2.2⟩

/-- Every entry of the concatenated sound tables has one of the four alert
types handled by the message construction. -/
lemma table_types : ∀ c ∈ YAMNET_SOUND_CLASSES ++ HUBERT_ANIMAL_CLASSES,
    c.type = "emergency" ∨ c.type = "security" ∨ c.type = "health" ∨
      c.type = "maintenance" := by decide

/-- The message construction produces a message for each of the four alert
types. -/
lemma buildAlertMessage_isSome {cfg : SoundClass} {location : String}
    (h : cfg.type = "emergency" ∨ cfg.type = "security" ∨ cfg.type = "health" ∨
      cfg.type = "maintenance") :
    (buildAlertMessage cfg location).isSome = true := by
  unfold buildAlertMessage
  rcases h with h | h | h | h <;> rw [h]
  · rw [if_pos rfl]
    simp
  · rw [if_neg (by decide), if_pos rfl]
    split <;> simp
  · rw [if_neg (by decide), if_neg (by decide), if_pos rfl]
    simp
  · rw [if_neg (by decide), if_neg (by decide), if_neg (by decide), if_pos rfl]
    simp

/-- C8.  The `soundConfig` lookup for the primary class always succeeds;
`shouldGenerateAlert` is true exactly when the looked-up severity is
medium, high, or critical; and a generated alert always has its severity,
type, and message fields populated. -/
theorem C8_alert_decision (fileName : String) (fileBuffer : Option (List Nat))
    (g : Nat → ℚ) (deviceLocation : Option String) (hg : RandOk g) :
    (∃ cfg, soundConfigFor (analyzeAudio fileName fileBuffer g deviceLocation).primaryClass
        = some cfg ∧
      ((analyzeAudio fileName fileBuffer g deviceLocation).shouldGenerateAlert = true ↔
        cfg.severity ∈ (["medium", "high", "critical"] : List String))) ∧
    ((analyzeAudio fileName fileBuffer g deviceLocation).shouldGenerateAlert = true →
      (analyzeAudio fileName fileBuffer g deviceLocation).alertSeverity.isSome = true ∧
      (analyzeAudio fileName fileBuffer g deviceLocation).alertType.isSome = true ∧
      (analyzeAudio fileName fileBuffer g deviceLocation).alertMessage.isSome = true) := by
  have hP : (analyzeAudio fileName fileBuffer g deviceLocation).primaryClass
      = ((sortedPredictions g).headD dummyPrediction).label := rfl
  obtain ⟨-, -, c, hcmem, hclab⟩ := rawPredictions_mem hg (sortedPredictions_head_mem hg)
  have hfindSome :
      (soundConfigFor ((sortedPredictions g).headD dummyPrediction).label).isSome = true := by
    rw [soundConfigFor, List.find?_isSome]
    exact ⟨c, hcmem, by rw [hclab]; exact beq_self_eq_true _⟩
  obtain ⟨cfg, hcfg⟩ := Option.isSome_iff_exists.mp hfindSome
  have hcfgmem : cfg ∈ YAMNET_SOUND_CLASSES ++ HUBERT_ANIMAL_CLASSES := by
    rw [soundConfigFor] at hcfg
    exact List.mem_of_find?_eq_some hcfg
  have hS : (analyzeAudio fileName fileBuffer g deviceLocation).shouldGenerateAlert
      = shouldGenerateAlertFor
          (soundConfigFor ((sortedPredictions g).headD dummyPrediction).label) := rfl
  have hSev : (analyzeAudio fileName fileBuffer g deviceLocation).alertSeverity
      = (soundConfigFor ((sortedPredictions g).headD dummyPrediction).label).map
          (fun c => c.severity) := rfl
  have hTy : (analyzeAudio fileName fileBuffer g deviceLocation).alertType
      = (soundConfigFor ((sortedPredictions g).headD dummyPrediction).label).map
          (fun c => c.type) := rfl
  have hMsg : (analyzeAudio fileName fileBuffer g deviceLocation).alertMessage
      = alertMessageFor (soundConfigFor ((sortedPredictions g).headD dummyPrediction).label)
          (shouldGenerateAlertFor
            (soundConfigFor ((sortedPredictions g).headD dummyPrediction).label))
          (locationOf deviceLocation) := rfl
  constructor
  · refine ⟨cfg, by rw [hP]; exact hcfg, ?_⟩
    rw [hS, hcfg]
    unfold shouldGenerateAlertFor
    simp
  · intro hshould
    rw [hS, hcfg] at hshould
    refine ⟨?_, ?_, ?_⟩
    · rw [hSev, hcfg]
      rfl
    · rw [hTy, hcfg]
      rfl
    · rw [hMsg, hcfg]
      unfold alertMessageFor
      rw [hshould]
      simp only [if_true]
      exact buildAlertMessage_isSome (table_types cfg hcfgmem)

/-- C8 witness at the all-zero random stream, which detects a Human scream
and generates an alert with populated fields. -/
theorem C8_alert_decision_witness :
    (analyzeAudio "a.wav" none (fun _ => 0) none).alertSeverity.isSome = true ∧
    (analyzeAudio "a.wav" none (fun _ => 0) none).alertType.isSome = true ∧
    (analyzeAudio "a.wav" none (fun _ => 0) none).alertMessage.isSome = true :=
  (C8_alert_decision "a.wav" none (fun _ => 0) none (fun _ => by norm_num)).2
    (by with_unfolding_all decide)

/-- C1, counterexample.  Two runs of `analyzeAudio` on the same file name,
with random draws that `Math.random` can produce, return different primary
detection classes: the class selection is weighted-random, not a
deterministic function of the file name. -/
theorem C1_counterexample :
    RandOk (fun _ => 0) ∧ RandOk (fun _ => (1 : ℚ)/2) ∧
    (analyzeAudio "alert.wav" none (fun _ => 0) none).primaryClass ≠
      (analyzeAudio "alert.wav" none (fun _ => (1 : ℚ)/2) none).primaryClass := by
  refine ⟨fun n => by norm_num, fun n => by norm_num, ?_⟩
  with_unfolding_all decide

/-- C1, amended.  `analyzeAudio` never reads its file name (or file buffer):
the analysis result — in particular `primaryDetection.class` — is a function
of the random draws and the device location alone, so equal random draws
give equal results for any two file names. -/
theorem C1_amended_filename_irrelevant (fileName1 fileName2 : String)
    (fileBuffer1 fileBuffer2 : Option (List Nat)) (g : Nat → ℚ)
    (deviceLocation : Option String) :
    analyzeAudio fileName1 fileBuffer1 g deviceLocation =
      analyzeAudio fileName2 fileBuffer2 g deviceLocation := rfl

/-! ## Data model (shared/schema.ts)

Rows carry the columns the checked properties touch; timestamp columns and
`jsonb` payloads (`config`, `aiDetails`, ...) are omitted, as is data of
tables none of the properties mention (sensor data, surveillance feeds,
automation rules, maintenance records, audio detections, sessions). -/

/-- A row of the `users` table. -/
structure User where
  id : String
  email : String
  firstName : Option String
  lastName : Option String
  role : String
deriving Repr, DecidableEq

/-- A row of the `houses` table.  `ownerId` is a nullable foreign key. -/
structure House where
  id : String
  ownerId : Option String
  name : String
  address : String
deriving Repr, DecidableEq

/-- A row of the `devices` table. -/
structure Device where
  id : String
  houseId : String
  serialNumber : Option String
  name : String
  type : String
  room : String
  status : String
  batteryLevel : Option Int
deriving Repr, DecidableEq

/-- A row of the `alerts` table. -/
structure Alert where
  id : String
  houseId : String
  deviceId : Option String
  type : String
  severity : String
  title : String
  status : String
  acknowledgedBy : Option String
  resolvedBy : Option String
deriving Repr, DecidableEq

/-- The database state seen by the storage layer. -/
structure DB where
  users : List User
  houses : List House
  devices : List Device
  alerts : List Alert
deriving Repr, DecidableEq

/-! ## Storage operations (server/storage.ts, class DatabaseStorage)

`select ... where eq(col, v)` with a single-row result is `List.find?`;
with a multi-row result it is `List.filter`.  The `orderBy(createdAt)`
clauses only permute results and no checked property concerns order, so
lists are returned in table order. -/

/-- `getUser`: select the user with the given id. -/
def getUser (db : DB) (id : String) : Option User :=
  db.users.find? (fun u => u.id == id)

/-- `getUserByEmail`. -/
def getUserByEmail (db : DB) (email : String) : Option User :=
  db.users.find? (fun u => u.email == email)

/-- `getHousesByOwner`: `eq(houses.ownerId, ownerId)`; a SQL `NULL` owner
never equals a string, matching `Option` equality with `some`. -/
def getHousesByOwner (db : DB) (ownerId : String) : List House :=
  db.houses.filter (fun h => h.ownerId == some ownerId)

/-- `getAllHouses`. -/
def getAllHouses (db : DB) : List House := db.houses

/-- `getHouseById`. -/
def getHouseById (db : DB) (id : String) : Option House :=
  db.houses.find? (fun h => h.id == id)

/-- `getAllDevices`. -/
def getAllDevices (db : DB) : List Device := db.devices

/-- `getDevice`. -/
def getDevice (db : DB) (id : String) : Option Device :=
  db.devices.find? (fun d => d.id == id)

/-- `getAllAlerts`. -/
def getAllAlerts (db : DB) : List Alert := db.alerts

/-- `getAlert`. -/
def getAlert (db : DB) (id : String) : Option Alert :=
  db.alerts.find? (fun a => a.id == id)

/-- A PATCH body for a device: JSON with all fields optional (`none` means
the key is absent).  Extra keys a JSON body could carry beyond the device
columns are irrelevant to every checked property and omitted. -/
structure DeviceBody where
  houseId : Option String
  serialNumber : Option String
  name : Option String
  type : Option String
  room : Option String
  status : Option String
  batteryLevel : Option Int
deriving Repr, DecidableEq

/-- The empty (all-keys-absent) device body. -/
def emptyDeviceBody : DeviceBody :=
  { houseId := none, serialNumber := none, name := none, type := none,
    room := none, status := none, batteryLevel := none }

/-- The object spread `{ ...device, ...deviceData }` of `updateDevice`:
keys present in the body overwrite the row, absent keys keep it. -/
def applyDeviceBody (b : DeviceBody) (d : Device) : Device :=
  { d with
    houseId := b.houseId.getD d.houseId
    serialNumber := match b.serialNumber with | some s => some s | none => d.serialNumber
    name := b.name.getD d.name
    type := b.type.getD d.type
    room := b.room.getD d.room
    status := b.status.getD d.status
    batteryLevel := match b.batteryLevel with | some v => some v | none => d.batteryLevel }

/-- `updateDevice`: update the row with the given id (no validation at this
layer) and return the updated row, if any, via `returning()`. -/
def updateDevice (db : DB) (id : String) (body : DeviceBody) : DB × Option Device :=
  let newDevices := db.devices.map (fun d => if d.id == id then applyDeviceBody body d else d)
  ({ db with devices := newDevices }, newDevices.find? (fun d => d.id == id))

/-- The `updateData` record of `updateAlertStatus`: always sets `status`,
and additionally `acknowledgedBy` or `resolvedBy` depending on the target
status.  Note there is no check of the current status. -/
def applyAlertStatus (status userId : String) (a : Alert) : Alert :=
  if status == "acknowledged" then
    { a with status := status, acknowledgedBy := some userId }
  else if status == "resolved" then
    { a with status := status, resolvedBy := some userId }
  else { a with status := status }

/-- `updateAlertStatus`: unconditionally writes `updateData` onto the row
with the given id and returns the updated row via `returning()`. -/
def updateAlertStatus (db : DB) (id status userId : String) : DB × Option Alert :=
  let newAlerts := db.alerts.map (fun a => if a.id == id then applyAlertStatus status userId a else a)
  ({ db with alerts := newAlerts }, newAlerts.find? (fun a => a.id == id))

/-! ## Middleware (server/middleware.ts) -/

/-- Outcome of an Express middleware: either `next()` was called (with
`req.currentUser` attached) or a response was sent and the handler is never
invoked. -/
inductive RoleGate where
  | next (currentUser : User)
  | deny (status : Nat) (message : String)
deriving Repr, DecidableEq

/-- `requireRole(...allowedRoles)` applied to `req.user`. -/
def requireRole (allowedRoles : List String) (reqUser : Option User) : RoleGate :=
  match reqUser with
  | none => RoleGate.deny 401 "Unauthorized"
  | some user =>
    if allowedRoles.contains user.role then RoleGate.next user
    else RoleGate.deny 403 "Forbidden: Insufficient permissions"

/-- `canAccessHouse(userId, houseId, userRole)`: staff roles access every
house; otherwise `house?.ownerId === userId` (false for a missing house and
for a `NULL` owner). -/
def canAccessHouse (db : DB) (userId houseId userRole : String) : Bool :=
  if userRole == "cloud_staff" || userRole == "iot_team" then true
  else
    match getHouseById db houseId with
    | some house => house.ownerId == some userId
    | none => false

/-! ## Route handlers (server/routes.ts)

A handler is a function of the database state and the request data it
reads.  `res.status(c).json({ message })` is `err`; `res.json(x)` is
`payload x` with status 200 (201 on creation).  The `catch` branches that
return 500 are unreachable here because the modelled storage operations do
not throw. -/

/-- An HTTP response body: a JSON payload or a JSON error object whose
`message` field is recorded. -/
inductive RespBody (α : Type) where
  | payload (value : α)
  | err (message : String)
deriving Repr, DecidableEq

/-- An HTTP response. -/
structure HttpResp (α : Type) where
  status : Nat
  body : RespBody α
deriving Repr, DecidableEq

/-- GET `/api/auth/user`. -/
def authUserHandler (db : DB) (userId : String) : HttpResp User :=
  match getUser db userId with
  | none => ⟨404, RespBody.err "User not found"⟩
  | some user => ⟨200, RespBody.payload user⟩

/-- GET `/api/alerts`. -/
def getAlertsHandler (db : DB) (userId : String) : HttpResp (List Alert) :=
  match getUser db userId with
  | none => ⟨401, RespBody.err "User not found"⟩
  | some user =>
    if user.role == "cloud_staff" || user.role == "iot_team" then
      ⟨200, RespBody.payload (getAllAlerts db)⟩
    else
      let houses := getHousesByOwner db userId
      let houseIds := houses.map (fun h => h.id)
      let allAlerts := getAllAlerts db
      ⟨200, RespBody.payload (allAlerts.filter (fun a => houseIds.contains a.houseId))⟩

/-- GET `/api/devices`. -/
def getDevicesHandler (db : DB) (userId : String) : HttpResp (List Device) :=
  match getUser db userId with
  | none => ⟨401, RespBody.err "User not found"⟩
  | some user =>
    if user.role == "cloud_staff" || user.role == "iot_team" then
      ⟨200, RespBody.payload (getAllDevices db)⟩
    else
      let houses := getHousesByOwner db userId
      let houseIds := houses.map (fun h => h.id)
      let allDevices := getAllDevices db
      ⟨200, RespBody.payload (allDevices.filter (fun d => houseIds.contains d.houseId))⟩

/-- The common tail of the three alert-status endpoints:
`storage.updateAlertStatus(id, status, userId)` then `res.json(updatedAlert)`
(status 200; the payload is `undefined` if no row matched). -/
def alertStatusProceed (db : DB) (alertId status userId : String) :
    HttpResp (Option Alert) × DB :=
  let res := updateAlertStatus db alertId status userId
  (⟨200, RespBody.payload res.2⟩, res.1)

/-- POST `/api/alerts/:id/acknowledge`. -/
def acknowledgeAlertHandler (db : DB) (userId alertId : String) :
    HttpResp (Option Alert) × DB :=
  match getAlert db alertId with
  | none => (⟨404, RespBody.err "Alert not found"⟩, db)
  | some alert =>
    match getUser db userId with
    | some u =>
      if u.role == "homeowner" then
        if canAccessHouse db userId alert.houseId u.role then
          alertStatusProceed db alertId "acknowledged" userId
        else (⟨403, RespBody.err "Access denied to this alert"⟩, db)
      else alertStatusProceed db alertId "acknowledged" userId
    | none => alertStatusProceed db alertId "acknowledged" userId

/-- POST `/api/alerts/:id/resolve`. -/
def resolveAlertHandler (db : DB) (userId alertId : String) :
    HttpResp (Option Alert) × DB :=
  match getAlert db alertId with
  | none => (⟨404, RespBody.err "Alert not found"⟩, db)
  | some alert =>
    match getUser db userId with
    | some u =>
      if u.role == "homeowner" then
        if canAccessHouse db userId alert.houseId u.role then
          alertStatusProceed db alertId "resolved" userId
        else (⟨403, RespBody.err "Access denied to this alert"⟩, db)
      else alertStatusProceed db alertId "resolved" userId
    | none => alertStatusProceed db alertId "resolved" userId

/-- POST `/api/alerts/:id/dismiss`. -/
def dismissAlertHandler (db : DB) (userId alertId : String) :
    HttpResp (Option Alert) × DB :=
  match getAlert db alertId with
  | none => (⟨404, RespBody.err "Alert not found"⟩, db)
  | some alert =>
    match getUser db userId with
    | some u =>
      if u.role == "homeowner" then
        if canAccessHouse db userId alert.houseId u.role then
          alertStatusProceed db alertId "dismissed" userId
        else (⟨403, RespBody.err "Access denied to this alert"⟩, db)
      else alertStatusProceed db alertId "dismissed" userId
    | none => alertStatusProceed db alertId "dismissed" userId

/-! ## Device creation and patching (POST and PATCH `/api/devices`) -/

/-- The `type` column enum of the `devices` table. -/
def deviceTypeEnum : List String :=
  ["camera", "microphone", "motion_sensor", "thermostat", "lock", "light", "smoke_detector"]

/-- The `status` column enum of the `devices` table. -/
def deviceStatusEnum : List String := ["online", "offline", "warning"]

/-- A validated device insert (`insertDeviceSchema` output). -/
structure InsertDevice where
  houseId : String
  serialNumber : Option String
  name : String
  type : String
  room : String
  status : String
  batteryLevel : Option Int
deriving Repr, DecidableEq

/-- `insertDeviceSchema.parse`:
`createInsertSchema(devices).omit(id, createdAt, updatedAt)` requires
`houseId`, `name`, `type` and `room` (the non-null columns without
defaults) and checks the enum columns; `none` models a thrown `ZodError`.
An absent `status` takes the column default `offline` (applied by the
database on insert; folded into parsing here). -/
def parseInsertDevice (b : DeviceBody) : Option InsertDevice :=
  match b.houseId, b.name, b.type, b.room with
  | some houseId, some name, some ty, some room =>
    if deviceTypeEnum.contains ty then
      let st := b.status.getD "offline"
      if deviceStatusEnum.contains st then
        some { houseId := houseId, serialNumber := b.serialNumber, name := name,
               type := ty, room := room, status := st, batteryLevel := b.batteryLevel }
      else none
    else none
  | _, _, _, _ => none

/-- The row a validated insert produces (`id` is database-generated). -/
def deviceOfInsert (newId : String) (d : InsertDevice) : Device :=
  { id := newId, houseId := d.houseId, serialNumber := d.serialNumber, name := d.name,
    type := d.type, room := d.room, status := d.status, batteryLevel := d.batteryLevel }

/-- `createDevice` of the storage layer. -/
def createDevice (db : DB) (newId : String) (d : InsertDevice) : DB × Device :=
  let dev := deviceOfInsert newId d
  ({ db with devices := db.devices ++ [dev] }, dev)

/-- POST `/api/devices`: validate, check the house exists, insert.  A
`ZodError` is caught by the generic `catch`, which answers 400. -/
def createDeviceHandler (db : DB) (newId : String) (body : DeviceBody) :
    HttpResp Device × DB :=
  match parseInsertDevice body with
  | none => (⟨400, RespBody.err "Failed to create device"⟩, db)
  | some d =>
    match getHouseById db d.houseId with
    | none => (⟨404, RespBody.err "House not found"⟩, db)
    | some _ =>
      let res := createDevice db newId d
      (⟨201, RespBody.payload res.2⟩, res.1)

/-- PATCH `/api/devices/:id`: `storage.updateDevice(req.params.id, req.body)`
— the body is passed to the update query as-is, with no schema validation
and no existence check (`res.json(undefined)` with status 200 when no row
matches). -/
def patchDeviceHandler (db : DB) (deviceId : String) (body : DeviceBody) :
    HttpResp (Option Device) × DB :=
  let res := updateDevice db deviceId body
  (⟨200, RespBody.payload res.2⟩, res.1)

/-! ## User creation (POST `/api/users`) -/

/-- A POST `/api/users` body (all JSON fields optional; the `authProvider`
and `profileImageUrl` keys are irrelevant to every checked property and
omitted). -/
structure UserBody where
  email : Option String
  firstName : Option String
  lastName : Option String
  role : Option String
  password : Option String
deriving Repr, DecidableEq

/-- The `role` column enum of the `users` table. -/
def roleEnum : List String := ["homeowner", "iot_team", "cloud_staff"]

/-- A validated user insert (`insertUserSchema` output). -/
structure InsertUser where
  email : String
  firstName : String
  lastName : String
  role : String
  password : Option String
deriving Repr, DecidableEq

/-- `insertUserSchema.parse`.  The `.email()` refinement is zod library
code, not repository code; it is modelled by the parameter `emailCheck`.
Claims instantiate `emailCheck` only in ways consistent with any email
wellformedness check that accepts ordinary addresses. -/
def parseInsertUser (emailCheck : String → Bool) (b : UserBody) : Option InsertUser :=
  match b.email, b.firstName, b.lastName, b.role with
  | some email, some firstName, some lastName, some role =>
    if emailCheck email && decide (1 ≤ firstName.length) && decide (1 ≤ lastName.length)
        && roleEnum.contains role
        && (match b.password with | some p => decide (6 ≤ p.length) | none => true) then
      some { email := email, firstName := firstName, lastName := lastName,
             role := role, password := b.password }
    else none
  | _, _, _, _ => none

/-- POST `/api/users`: validate (`ZodError` answers 400), reject duplicate
emails with 409, otherwise `upsertUser` with the fresh id `pre-<uuid>`
(a plain insert, since the id is fresh). -/
def createUserHandler (emailCheck : String → Bool) (db : DB) (uuid : String)
    (body : UserBody) : HttpResp User × DB :=
  match parseInsertUser emailCheck body with
  | none => (⟨400, RespBody.err "Validation failed"⟩, db)
  | some iu =>
    match getUserByEmail db iu.email with
    | some _ => (⟨409, RespBody.err "User with this email already exists"⟩, db)
    | none =>
      let user : User := { id := "pre-" ++ uuid, email := iu.email,
                           firstName := some iu.firstName, lastName := some iu.lastName,
                           role := iu.role }
      (⟨201, RespBody.payload user⟩, { db with users := db.users ++ [user] })

/-! ## Sample data for concrete instances -/

/-- A cloud-staff user. -/
def sampleStaff : User :=
  { id := "s1", email := "staff@example.com", firstName := some "Sam",
    lastName := some "Staff", role := "cloud_staff" }

/-- A homeowner. -/
def sampleOwner : User :=
  { id := "u1", email := "owner@example.com", firstName := some "Olive",
    lastName := some "Owner", role := "homeowner" }

/-- A house owned by `sampleOwner`. -/
def sampleHouse : House :=
  { id := "h1", ownerId := some "u1", name := "Main House", address := "1 Elm St" }

/-- A camera in `sampleHouse`. -/
def sampleDevice : Device :=
  { id := "d1", houseId := "h1", serialNumber := none, name := "Cam",
    type := "camera", room := "Hall", status := "online", batteryLevel := none }

/-- An alert on `sampleHouse` that has already been resolved. -/
def resolvedAlert : Alert :=
  { id := "a1", houseId := "h1", deviceId := some "d1", type := "intrusion",
    severity := "high", title := "T", status := "resolved",
    acknowledgedBy := none, resolvedBy := none }

/-- A small database state. -/
def sampleDB : DB :=
  { users := [sampleStaff, sampleOwner], houses := [sampleHouse],
    devices := [sampleDevice], alerts := [resolvedAlert] }

/-! ## List lemmas for the storage layer -/

/-- Updating rows in place preserves an id-keyed `find?`: if the row with
the given id is found, the mapped list finds its updated version. -/
lemma find?_update_map {α : Type} (idOf : α → String) (f : α → α)
    (hf : ∀ x, idOf (f x) = idOf x) {l : List α} {id : String} {a : α}
    (h : l.find? (fun x => idOf x == id) = some a) :
    (l.map (fun x => if idOf x == id then f x else x)).find? (fun x => idOf x == id)
      = some (f a) := by
  induction l with
  | nil => simp at h
  | cons b tl ih =>
    by_cases hb : (idOf b == id) = true
    · rw [@List.find?_cons_of_pos _ (fun x => idOf x == id) b tl hb] at h
      injection h with h
      subst h
      simp only [List.map_cons, hb, if_true]
      rw [@List.find?_cons_of_pos _ (fun x => idOf x == id) (f b) _
        (by show (idOf (f b) == id) = true; rw [hf]; exact hb)]
    · rw [@List.find?_cons_of_neg _ (fun x => idOf x == id) b tl (by simpa using hb)] at h
      simp only [List.map_cons, hb, if_false, Bool.false_eq_true]
      rw [@List.find?_cons_of_neg _ (fun x => idOf x == id) b _ (by simpa using hb)]
      exact ih h

/-- With pairwise-distinct ids, `find?` by id retrieves exactly a given
member with that id. -/
lemma find?_of_nodup_ids {α : Type} (idOf : α → String) {l : List α} {a : α}
    (hnd : (l.map idOf).Nodup) (hmem : a ∈ l) :
    l.find? (fun x => idOf x == idOf a) = some a := by
  induction l with
  | nil => simp at hmem
  | cons b tl ih =>
    rw [List.map_cons, List.nodup_cons] at hnd
    rcases List.mem_cons.mp hmem with rfl | hmem
    · rw [@List.find?_cons_of_pos _ (fun x => idOf x == idOf a) a tl (by simp)]
    · have hne : idOf b ≠ idOf a := by
        intro he
        exact hnd.1 (he ▸ List.mem_map_of_mem idOf hmem)
      rw [@List.find?_cons_of_neg _ (fun x => idOf x == idOf a) b tl (by simpa using hne),
        ih hnd.2 hmem]

/-! ## Claim theorems for middleware and routes -/

/-- C3.  `requireRole(allowedRoles)` forwards a request to the handler
exactly when `req.user` is present with a role in the allow-list; with no
user it answers 401, and with a disallowed role 403, each with a JSON
message, and the handler is not invoked. -/
theorem C3_requireRole_gate :
    (∀ (allowedRoles : List String) (reqUser : Option User) (u : User),
        requireRole allowedRoles reqUser = RoleGate.next u ↔
          reqUser = some u ∧ u.role ∈ allowedRoles) ∧
    (∀ allowedRoles : List String,
        requireRole allowedRoles none = RoleGate.deny 401 "Unauthorized") ∧
    (∀ (allowedRoles : List String) (u : User), u.role ∉ allowedRoles →
        requireRole allowedRoles (some u)
          = RoleGate.deny 403 "Forbidden: Insufficient permissions") := by
  refine ⟨?_, fun _ => rfl, ?_⟩
  · intro roles reqUser u
    constructor
    · intro h
      match reqUser with
      | none => simp [requireRole] at h
      | some v =>
        rw [requireRole] at h
        by_cases hc : (roles.contains v.role) = true
        · rw [if_pos hc] at h
          injection h with h
          subst h
          exact ⟨rfl, by simpa using hc⟩
        · rw [if_neg (by simpa using hc)] at h
          cases h
    · rintro ⟨rfl, hmem⟩
      rw [requireRole, if_pos (by simpa using hmem)]
  · intro roles u hmem
    rw [requireRole, if_neg (by simpa using hmem)]

/-- C3 witness: a homeowner hitting an `iot_team`/`cloud_staff` route is
denied with 403. -/
theorem C3_requireRole_gate_witness :
    requireRole ["iot_team", "cloud_staff"] (some sampleOwner)
      = RoleGate.deny 403 "Forbidden: Insufficient permissions" :=
  C3_requireRole_gate.2.2 ["iot_team", "cloud_staff"] sampleOwner (by decide)

/-- C7.  `canAccessHouse` grants staff roles access to every house, and a
non-staff caller access exactly when a house with that id exists and its
`ownerId` equals the caller (house ids are primary keys, hence pairwise
distinct). -/
theorem C7_canAccessHouse (db : DB) (userId houseId userRole : String)
    (hnd : (db.houses.map House.id).Nodup) :
    canAccessHouse db userId houseId userRole = true ↔
      (userRole = "cloud_staff" ∨ userRole = "iot_team") ∨
        ∃ h ∈ db.houses, h.id = houseId ∧ h.ownerId = some userId := by
  unfold canAccessHouse
  by_cases hstaff : (userRole == "cloud_staff" || userRole == "iot_team") = true
  · rw [if_pos hstaff]
    simp only [true_iff]
    left
    simpa using hstaff
  · rw [if_neg (by simpa using hstaff)]
    have hnostaff : ¬(userRole = "cloud_staff" ∨ userRole = "iot_team") := by
      simpa using hstaff
    cases hfind : getHouseById db houseId with
    | none =>
      unfold getHouseById at hfind
      rw [List.find?_eq_none] at hfind
      constructor
      · intro h
        cases h
      · rintro (h | ⟨h, hmem, hid, _⟩)
        · exact absurd h hnostaff
        · exact absurd (by simpa using hfind h hmem) (by simp [hid])
    | some house =>
      have hhmem : house ∈ db.houses := List.mem_of_find?_eq_some hfind
      have hhid : house.id = houseId := by
        have := List.find?_some hfind
        simpa using this
      constructor
      · intro h
        right
        exact ⟨house, hhmem, hhid, by simpa using h⟩
      · rintro (h | ⟨h, hmem, hid, hown⟩)
        · exact absurd h hnostaff
        · have : getHouseById db houseId = some h := by
            unfold getHouseById
            have := find?_of_nodup_ids House.id hnd hmem
            rw [hid] at this
            exact this
          rw [hfind] at this
          injection this with this
          subst this
          simpa using hown

/-- C7 witness: the homeowner of `sampleHouse` may access it. -/
theorem C7_canAccessHouse_witness :
    canAccessHouse sampleDB "u1" "h1" "homeowner" = true :=
  (C7_canAccessHouse sampleDB "u1" "h1" "homeowner" (by decide)).mpr
    (Or.inr ⟨sampleHouse, by decide, rfl, rfl⟩)

/-- C4.  For a homeowner, GET `/api/alerts` and GET `/api/devices` return
only rows belonging to houses the caller owns; for cloud staff and the IoT
team they return all rows. -/
theorem C4_scoped_listing (db : DB) (userId : String) (u : User)
    (hu : getUser db userId = some u) :
    (u.role = "homeowner" →
      (∀ l, getAlertsHandler db userId = ⟨200, RespBody.payload l⟩ →
        ∀ a ∈ l, ∃ h ∈ db.houses, h.id = a.houseId ∧ h.ownerId = some userId) ∧
      (∀ l, getDevicesHandler db userId = ⟨200, RespBody.payload l⟩ →
        ∀ d ∈ l, ∃ h ∈ db.houses, h.id = d.houseId ∧ h.ownerId = some userId)) ∧
    ((u.role = "cloud_staff" ∨ u.role = "iot_team") →
      getAlertsHandler db userId = ⟨200, RespBody.payload db.alerts⟩ ∧
      getDevicesHandler db userId = ⟨200, RespBody.payload db.devices⟩) := by
  constructor
  · intro hrole
    have hstaff : (u.role == "cloud_staff" || u.role == "iot_team") = false := by
      rw [hrole]; rfl
    constructor
    · intro l hl a ha
      rw [getAlertsHandler, hu] at hl
      simp only [hstaff, Bool.false_eq_true, if_false] at hl
      injection hl with _ hbody
      injection hbody with hlist
      rw [← hlist, List.mem_filter] at ha
      have hmemIds : a.houseId ∈ (getHousesByOwner db userId).map (fun h => h.id) := by
        simpa using ha.2
      obtain ⟨h, hmem, hid⟩ := List.mem_map.mp hmemIds
      rw [getHousesByOwner, List.mem_filter] at hmem
      exact ⟨h, hmem.1, hid, by simpa using hmem.2⟩
    · intro l hl d hd
      rw [getDevicesHandler, hu] at hl
      simp only [hstaff, Bool.false_eq_true, if_false] at hl
      injection hl with _ hbody
      injection hbody with hlist
      rw [← hlist, List.mem_filter] at hd
      have hmemIds : d.houseId ∈ (getHousesByOwner db userId).map (fun h => h.id) := by
        simpa using hd.2
      obtain ⟨h, hmem, hid⟩ := List.mem_map.mp hmemIds
      rw [getHousesByOwner, List.mem_filter] at hmem
      exact ⟨h, hmem.1, hid, by simpa using hmem.2⟩
  · intro hrole
    have hstaff : (u.role == "cloud_staff" || u.role == "iot_team") = true := by
      rcases hrole with h | h <;> rw [h] <;> rfl
    constructor
    · rw [getAlertsHandler, hu]
      simp only [hstaff, if_true]
      rfl
    · rw [getDevicesHandler, hu]
      simp only [hstaff, if_true]
      rfl

/-- C4 witness: on the sample database, the staff user receives every
alert and every device. -/
theorem C4_scoped_listing_witness :
    getAlertsHandler sampleDB "s1" = ⟨200, RespBody.payload sampleDB.alerts⟩ ∧
    getDevicesHandler sampleDB "s1" = ⟨200, RespBody.payload sampleDB.devices⟩ :=
  (C4_scoped_listing sampleDB "s1" sampleStaff (by decide)).2 (Or.inl rfl)

/-- `updateData` never changes the row id. -/
lemma applyAlertStatus_id (status userId : String) (a : Alert) :
    (applyAlertStatus status userId a).id = a.id := by
  unfold applyAlertStatus
  split
  · rfl
  · split <;> rfl

/-- `updateData` always sets the requested status. -/
lemma applyAlertStatus_status (status userId : String) (a : Alert) :
    (applyAlertStatus status userId a).status = status := by
  unfold applyAlertStatus
  split
  · rfl
  · split <;> rfl

/-- If the alert exists, `updateAlertStatus` returns its updated row. -/
lemma updateAlertStatus_found {db : DB} {id status userId : String} {a : Alert}
    (h : getAlert db id = some a) :
    (updateAlertStatus db id status userId).2 = some (applyAlertStatus status userId a) :=
  find?_update_map Alert.id (applyAlertStatus status userId)
    (applyAlertStatus_id status userId) h

/-- C2, counterexample.  On the sample database the alert `a1` is already
resolved, yet POST `/api/alerts/a1/acknowledge` (here by the staff user)
succeeds and moves it back to `acknowledged`, although `resolved` is not
`new`: the claimed lifecycle order is not enforced. -/
theorem C2_counterexample :
    (getAlert sampleDB "a1").map Alert.status = some "resolved" ∧
    ((acknowledgeAlertHandler sampleDB "s1" "a1").2.alerts.find?
        (fun a => a.id == "a1")).map Alert.status = some "acknowledged" ∧
    "resolved" ≠ "new" :=
  ⟨by decide, by decide, by decide⟩

/-- C2, amended.  The three status endpoints perform no transition check:
whenever the alert exists (and the caller passes the homeowner access
check — here, any non-homeowner user), each endpoint unconditionally sets
the requested status, whatever the current status is. -/
theorem C2_amended_unconditional (db : DB) (userId alertId : String) (a : Alert) (u : User)
    (ha : getAlert db alertId = some a) (hu : getUser db userId = some u)
    (hrole : u.role ≠ "homeowner") :
    ((acknowledgeAlertHandler db userId alertId).1
        = ⟨200, RespBody.payload (some (applyAlertStatus "acknowledged" userId a))⟩ ∧
      (applyAlertStatus "acknowledged" userId a).status = "acknowledged") ∧
    ((resolveAlertHandler db userId alertId).1
        = ⟨200, RespBody.payload (some (applyAlertStatus "resolved" userId a))⟩ ∧
      (applyAlertStatus "resolved" userId a).status = "resolved") ∧
    ((dismissAlertHandler db userId alertId).1
        = ⟨200, RespBody.payload (some (applyAlertStatus "dismissed" userId a))⟩ ∧
      (applyAlertStatus "dismissed" userId a).status = "dismissed") := by
  have hrb : (u.role == "homeowner") = false := by
    simpa using hrole
  refine ⟨⟨?_, applyAlertStatus_status _ _ _⟩, ⟨?_, applyAlertStatus_status _ _ _⟩,
    ⟨?_, applyAlertStatus_status _ _ _⟩⟩
  · rw [acknowledgeAlertHandler, ha, hu]
    simp only [hrb, Bool.false_eq_true, if_false]
    rw [alertStatusProceed]
    rw [updateAlertStatus_found ha]
  · rw [resolveAlertHandler, ha, hu]
    simp only [hrb, Bool.false_eq_true, if_false]
    rw [alertStatusProceed]
    rw [updateAlertStatus_found ha]
  · rw [dismissAlertHandler, ha, hu]
    simp only [hrb, Bool.false_eq_true, if_false]
    rw [alertStatusProceed]
    rw [updateAlertStatus_found ha]

/-- C2 witness: on the sample database the staff user acknowledges,
resolves, or dismisses the (already resolved) alert `a1`. -/
theorem C2_amended_unconditional_witness :
    (acknowledgeAlertHandler sampleDB "s1" "a1").1
        = ⟨200, RespBody.payload (some (applyAlertStatus "acknowledged" "s1" resolvedAlert))⟩ ∧
    (applyAlertStatus "acknowledged" "s1" resolvedAlert).status = "acknowledged" :=
  (C2_amended_unconditional sampleDB "s1" "a1" resolvedAlert sampleStaff
    (by decide) (by decide) (by decide)).1

/-- A PATCH body whose `type` is not in the device type enum, so
`insertDeviceSchema.parse` rejects it. -/
def invalidTypeBody : DeviceBody := { emptyDeviceBody with type := some "banana" }

/-- The body spread never changes the row id. -/
lemma applyDeviceBody_id (b : DeviceBody) (d : Device) :
    (applyDeviceBody b d).id = d.id := rfl

/-- If the device exists, `updateDevice` returns its updated row. -/
lemma updateDevice_found {db : DB} {id : String} {b : DeviceBody} {d : Device}
    (h : getDevice db id = some d) :
    (updateDevice db id b).2 = some (applyDeviceBody b d) :=
  find?_update_map Device.id (applyDeviceBody b) (applyDeviceBody_id b) h

/-- C5, counterexample.  The body `{ type: "banana" }` fails
`insertDeviceSchema` validation (POST would answer 400), yet
PATCH `/api/devices/d1` accepts it with 200 and writes the invalid type
into the devices table: the body reached the database unvalidated. -/
theorem C5_counterexample :
    parseInsertDevice invalidTypeBody = none ∧
    (patchDeviceHandler sampleDB "d1" invalidTypeBody).1.status = 200 ∧
    (patchDeviceHandler sampleDB "d1" invalidTypeBody).2.devices.map Device.type
      = ["banana"] :=
  ⟨by decide, by decide, by decide⟩

/-- C5, amended.  POST `/api/devices` validates before touching the
database (an invalid body yields 400 and leaves the state unchanged), but
PATCH `/api/devices/:id` performs no validation: any body, valid or not,
is written onto the existing row and answered with 200. -/
theorem C5_amended_patch_unvalidated (db : DB) (newId deviceId : String) (body : DeviceBody) :
    (parseInsertDevice body = none →
      createDeviceHandler db newId body = (⟨400, RespBody.err "Failed to create device"⟩, db)) ∧
    (∀ d, getDevice db deviceId = some d →
      (patchDeviceHandler db deviceId body).1
        = ⟨200, RespBody.payload (some (applyDeviceBody body d))⟩) := by
  constructor
  · intro hp
    rw [createDeviceHandler, hp]
  · intro d hd
    have h2 := @updateDevice_found db deviceId body d hd
    show (⟨200, RespBody.payload (updateDevice db deviceId body).2⟩ : HttpResp (Option Device)) = _
    rw [h2]

/-- C5 witness: the invalid body is rejected by POST and accepted by PATCH
on the sample database. -/
theorem C5_amended_patch_unvalidated_witness :
    createDeviceHandler sampleDB "d9" invalidTypeBody
        = (⟨400, RespBody.err "Failed to create device"⟩, sampleDB) ∧
    (patchDeviceHandler sampleDB "d1" invalidTypeBody).1
        = ⟨200, RespBody.payload (some (applyDeviceBody invalidTypeBody sampleDevice))⟩ :=
  ⟨(C5_amended_patch_unvalidated sampleDB "d9" "d1" invalidTypeBody).1 (by decide),
   (C5_amended_patch_unvalidated sampleDB "d9" "d1" invalidTypeBody).2 sampleDevice (by decide)⟩

/-! ## Error statuses (C6) -/

/-- The error status codes the modelled route handlers can produce. -/
def errStatusSet : List Nat := [400, 401, 403, 404, 409, 500]

/-- An error response (status at least 400) has a status in `errStatusSet`
and a JSON body with a `message` field. -/
def errorsWellFormed {α : Type} (r : HttpResp α) : Prop :=
  400 ≤ r.status → r.status ∈ errStatusSet ∧ ∃ m, r.body = RespBody.err m

/-- A POST `/api/users` body that duplicates the sample owner email. -/
def duplicateEmailBody : UserBody :=
  { email := some "owner@example.com", firstName := some "New",
    lastName := some "Person", role := some "homeowner", password := none }

/-- C6, counterexample.  POST `/api/users` on a body whose (well-formed,
zod-acceptable) email already exists answers 409 — an error status outside
the claimed set `{400, 401, 403, 404, 500}` — with a JSON message. -/
theorem C6_counterexample :
    (createUserHandler (fun _ => true) sampleDB "uuid1" duplicateEmailBody).1.status = 409 ∧
    (createUserHandler (fun _ => true) sampleDB "uuid1" duplicateEmailBody).1.body
      = RespBody.err "User with this email already exists" ∧
    (409 : Nat) ∉ ([400, 401, 403, 404, 500] : List Nat) :=
  ⟨by decide, by decide, by decide⟩

/-- C6, amended.  Every error response of the modelled handlers carries a
JSON `message` and a status in `{400, 401, 403, 404, 409, 500}`: the extra
code is the 409 duplicate-email conflict of POST `/api/users`.  The
role-guard denials (401/403) lie in the same set. -/
theorem C6_amended_error_statuses :
    (∀ db userId, errorsWellFormed (authUserHandler db userId)) ∧
    (∀ db userId, errorsWellFormed (getAlertsHandler db userId)) ∧
    (∀ db userId, errorsWellFormed (getDevicesHandler db userId)) ∧
    (∀ db userId alertId, errorsWellFormed (acknowledgeAlertHandler db userId alertId).1) ∧
    (∀ db userId alertId, errorsWellFormed (resolveAlertHandler db userId alertId).1) ∧
    (∀ db userId alertId, errorsWellFormed (dismissAlertHandler db userId alertId).1) ∧
    (∀ db newId body, errorsWellFormed (createDeviceHandler db newId body).1) ∧
    (∀ db deviceId body, errorsWellFormed (patchDeviceHandler db deviceId body).1) ∧
    (∀ emailCheck db uuid body, errorsWellFormed (createUserHandler emailCheck db uuid body).1) ∧
    (∀ allowedRoles reqUser status message,
        requireRole allowedRoles reqUser = RoleGate.deny status message →
          status ∈ errStatusSet) := by
  refine ⟨?_, ?_, ?_, ?_, ?_, ?_, ?_, ?_, ?_, ?_⟩
  · intro db userId
    unfold authUserHandler errorsWellFormed
    split <;> intro hc
    all_goals first
    | exact ⟨by norm_num [errStatusSet], _, rfl⟩
    | simp at hc
  · intro db userId
    unfold getAlertsHandler errorsWellFormed
    split <;> [skip; split] <;> intro hc
    all_goals first
    | exact ⟨by norm_num [errStatusSet], _, rfl⟩
    | simp at hc
  · intro db userId
    unfold getDevicesHandler errorsWellFormed
    split <;> [skip; split] <;> intro hc
    all_goals first
    | exact ⟨by norm_num [errStatusSet], _, rfl⟩
    | simp at hc
  · intro db userId alertId
    unfold acknowledgeAlertHandler alertStatusProceed errorsWellFormed
    split <;> (try split) <;> (try split) <;> (try split) <;> intro hc
    all_goals first
    | exact ⟨by norm_num [errStatusSet], _, rfl⟩
    | simp at hc
  · intro db userId alertId
    unfold resolveAlertHandler alertStatusProceed errorsWellFormed
    split <;> (try split) <;> (try split) <;> (try split) <;> intro hc
    all_goals first
    | exact ⟨by norm_num [errStatusSet], _, rfl⟩
    | simp at hc
  · intro db userId alertId
    unfold dismissAlertHandler alertStatusProceed errorsWellFormed
    split <;> (try split) <;> (try split) <;> (try split) <;> intro hc
    all_goals first
    | exact ⟨by norm_num [errStatusSet], _, rfl⟩
    | simp at hc
  · intro db newId body
    unfold createDeviceHandler errorsWellFormed
    split <;> (try split) <;> intro hc
    all_goals first
    | exact ⟨by norm_num [errStatusSet], _, rfl⟩
    | simp at hc
  · intro db deviceId body
    unfold patchDeviceHandler errorsWellFormed
    intro hc
    simp at hc
  · intro emailCheck db uuid body
    unfold createUserHandler errorsWellFormed
    split <;> (try split) <;> intro hc
    all_goals first
    | exact ⟨by norm_num [errStatusSet], _, rfl⟩
    | simp at hc
  · intro allowedRoles reqUser status message h
    unfold requireRole at h
    split at h
    · injection h with h1 _
      rw [← h1]
      decide
    · split at h
      · cases h
      · injection h with h1 _
        rw [← h1]
        decide

/-- C6 witness: the modelled GET `/api/auth/user` error on an empty
database has a well-formed error shape. -/
theorem C6_amended_error_statuses_witness :
    (authUserHandler ⟨[], [], [], []⟩ "u").status ∈ errStatusSet ∧
    ∃ m, (authUserHandler ⟨[], [], [], []⟩ "u").body = RespBody.err m :=
  C6_amended_error_statuses.1 ⟨[], [], [], []⟩ "u" (by decide)

end SmartHome
